import Mathlib

/-!
Shallow embedding of the order simulator in traffic/order.py and of the
restroom part of update_restaurant_metrics.  Wall-clock timestamps and
durations are integer milliseconds (the source holds them in Python
floats; no claim depends on fractional values and every drawn duration is
embedded as an arbitrary integer oracle value, so ℤ keeps every
definition kernel-computable); the division-valued gauges (averages,
slow-order percentage) are exact rationals.  Every operation takes the
sampled current time as an explicit parameter (the source samples
time.time() several times inside one tick, always within the same instant
of the model).  Random draws are explicit oracle arguments; a draw that
the source only ever compares against a fixed probability, such as
random() < 0.05, is embedded as the Boolean outcome of that comparison.
The Prometheus side effects the claims talk about (gauge writes, counter
increments, histogram observations) are returned as explicit write
records: an `Option` field is `none` when the source does not call .set
on that gauge during the tick.  The float constant 0.99 of the percentile
index is embedded exactly, int(n * 0.99) as n * 99 / 100.
-/

namespace FastFood

/-- The two order categories used by PROCESSING_TIMES and MACHINES. -/
inductive Item where
  | fries
  | milkshake
  deriving DecidableEq

/-- PROCESSING_TIMES: per-category inclusive uniform range (ms) for the drawn
processing time. -/
def PROCESSING_TIMES : Item → ℤ × ℤ
  | Item.fries => (170, 200)
  | Item.milkshake => (100, 150)

/-- MACHINES: per-category machine-pool capacity. -/
def MACHINES : Item → ℕ
  | Item.fries => 10
  | Item.milkshake => 10

/-- BATHROOM_CAPACITY: number of stalls. -/
def BATHROOM_CAPACITY : ℤ := 4

/-- The Order dataclass. -/
structure Order where
  item : Item
  processing_time : ℤ
  start_time : ℤ
  created_time : ℤ
  queued : Bool := true
  deriving DecidableEq

/-- Order.is_completed: now >= start_time + processing_time.  Note that the
source reads start_time whether or not the order is queued. -/
def Order.is_completed (o : Order) (now : ℤ) : Bool :=
  decide (o.start_time + o.processing_time ≤ now)

/-- Order.elapsed_time: now - start_time. -/
def Order.elapsed_time (o : Order) (now : ℤ) : ℤ :=
  now - o.start_time

/-- The mutable state of the OrderSimulator class.  busy_machines is the
defaultdict(int) as a total map. -/
structure OrderSimulator where
  active_orders : List Order
  total_orders : ℕ
  busy_machines : Item → ℤ
  processing_times : Item → List (ℤ × ℤ)
  faulty_machine : Bool
  start_time : ℤ

/-- OrderSimulator.__init__ at wall-clock time now. -/
def OrderSimulator.init (now : ℤ) : OrderSimulator :=
  { active_orders := [], total_orders := 0, busy_machines := fun _ => 0
    processing_times := fun _ => [], faulty_machine := false, start_time := now }

/-- OrderSimulator._start_processing.  The method mutates the order and the
busy map and returns a bool; here it returns the updated order, the updated
busy map and the bool.  The capacity table is a parameter so that the
configured MACHINES pool and the capacity-1 scenario of the spec share one
definition. -/
def _start_processing (machines : Item → ℕ) (busy : Item → ℤ) (now : ℤ)
    (o : Order) : Order × (Item → ℤ) × Bool :=
  if o.queued = false then (o, busy, false)
  else if (machines o.item : ℤ) ≤ busy o.item then (o, busy, false)
  else ({ o with queued := false, start_time := now },
        fun i => if i = o.item then busy i + 1 else busy i, true)

/-- The admission loop at the top of update_metrics: for every active order,
if it is queued, attempt _start_processing, threading the busy map. -/
def admitOrders (machines : Item → ℕ) (now : ℤ) :
    List Order → (Item → ℤ) → List Order × (Item → ℤ)
  | [], busy => ([], busy)
  | o :: rest, busy =>
    if o.queued then
      let r := _start_processing machines busy now o
      let rs := admitOrders machines now rest r.2.1
      (r.1 :: rs.1, rs.2)
    else
      let rs := admitOrders machines now rest busy
      (o :: rs.1, rs.2)

/-- Accumulator of the completed-order loop of update_metrics: the busy map,
the per-category sliding window, the completed list, the per-tick
SLOW_ORDERS increments, and the per-tick histogram observations
(ORDER_PROCESS_MS, PROCESS_TIME_SLIDING_MS, TOTAL_TIME_MS). -/
structure CompletionState where
  busy : Item → ℤ
  ptimes : Item → List (ℤ × ℤ)
  completed : List Order
  slowInc : Item → ℕ
  processObs : List (Item × ℤ)
  slidingObs : List (Item × ℤ)
  totalObs : List (Item × ℤ)

/-- Starting accumulator of the completed-order loop. -/
def CompletionState.start (busy : Item → ℤ) (pt : Item → List (ℤ × ℤ)) :
    CompletionState :=
  ⟨busy, pt, [], fun _ => 0, [], [], []⟩

/-- One iteration of the completed-order loop of update_metrics: a completed
order is collected; if it was not queued its machine is freed, its times are
observed, SLOW_ORDERS increments when total time exceeds 400, and the sample
is appended to the sliding window, which is then pruned to 2000 ms. -/
def completionStep (now : ℤ) (st : CompletionState) (o : Order) : CompletionState :=
  if o.is_completed now then
    if o.queued then { st with completed := st.completed ++ [o] }
    else
      let process_time := o.elapsed_time now
      let total_time := now - o.created_time
      { busy := fun i => if i = o.item then st.busy i - 1 else st.busy i
        ptimes := fun i => if i = o.item then
            (st.ptimes o.item ++ [(now, process_time)]).filter
              (fun tp => decide (now - tp.1 ≤ 2000))
          else st.ptimes i
        completed := st.completed ++ [o]
        slowInc := fun i => if i = o.item ∧ 400 < total_time then st.slowInc i + 1
          else st.slowInc i
        processObs := st.processObs ++ [(o.item, process_time)]
        slidingObs := st.slidingObs ++ [(o.item, process_time)]
        totalObs := st.totalObs ++ [(o.item, total_time)] }
  else st

/-- The aggregation filter for the per-category recent processing times:
current_time - t <= 100. -/
def recentPairs (pt : List (ℤ × ℤ)) (now : ℤ) : List (ℤ × ℤ) :=
  pt.filter (fun tp => decide (now - tp.1 ≤ 100))

/-- The aggregation filter used for the overall averages:
current_time - t <= 2000. -/
def overallRecentPairs (pt : List (ℤ × ℤ)) (now : ℤ) : List (ℤ × ℤ) :=
  pt.filter (fun tp => decide (now - tp.1 ≤ 2000))

/-- Elapsed times of the active, non-queued orders of one category. -/
def active_process_times (active : List Order) (now : ℤ) (itm : Item) : List ℤ :=
  (active.filter (fun o => decide (o.item = itm) && !o.queued)).map
    (fun o => o.elapsed_time now)

/-- Creation-to-now times of all active orders of one category. -/
def active_total_times (active : List Order) (now : ℤ) (itm : Item) : List ℤ :=
  (active.filter (fun o => decide (o.item = itm))).map (fun o => now - o.created_time)

/-- all_process_times of update_metrics: active elapsed times plus the recent
sliding-window samples of the category. -/
def all_process_times (active : List Order) (pt : List (ℤ × ℤ)) (now : ℤ)
    (itm : Item) : List ℤ :=
  active_process_times active now itm ++ (recentPairs pt now).map Prod.snd

/-- Insertion of one element into an ascending list. -/
def insertSorted (x : ℤ) : List ℤ → List ℤ
  | [] => [x]
  | y :: ys => if x ≤ y then x :: y :: ys else y :: insertSorted x ys

/-- Ascending sort, the role of sorted() in the source. -/
def sortZ : List ℤ → List ℤ
  | [] => []
  | x :: xs => insertSorted x (sortZ xs)

/-- Index used for the approximate 99th percentile: int(n * 0.99). -/
def p99Index (n : ℕ) : ℕ := n * 99 / 100

/-- Arithmetic mean of a sample list, as the exact rational the float
division approximates. -/
def avgQ (l : List ℤ) : ℚ := (l.sum : ℚ) / (l.length : ℚ)

/-- Per-category gauge writes of one tick.  An Option field is none when the
source does not call .set on that gauge during the tick. -/
structure GaugeWrites where
  queuedGauge : ℕ
  busyGauge : ℤ
  avgProcess : Option ℚ
  p99Process : Option ℤ
  avgTotal : Option ℚ
  p99Total : Option ℤ
  slowPct : Option ℚ
  deriving DecidableEq

/-- The per-category block of update_metrics: queued count, busy count, and
the five derived gauges, with the zero-reset branch when the category has no
samples at all. -/
def itemGaugeWrites (active : List Order) (pt : List (ℤ × ℤ)) (busy : Item → ℤ)
    (now : ℤ) (itm : Item) : GaugeWrites :=
  let ps := all_process_times active pt now itm
  let ts := active_total_times active now itm
  if ps ≠ [] ∨ ts ≠ [] then
    { queuedGauge := (active.filter (fun o => decide (o.item = itm) && o.queued)).length
      busyGauge := busy itm
      avgProcess := if ps ≠ [] then some (avgQ ps) else none
      p99Process := if ps ≠ [] ∧ 1 < ps.length then
          some ((sortZ ps).getD (p99Index ps.length) 0) else none
      avgTotal := if ts ≠ [] then some (avgQ ts) else none
      p99Total := if ts ≠ [] ∧ 1 < ts.length then
          some ((sortZ ts).getD (p99Index ts.length) 0) else none
      slowPct := if ps ≠ [] then
          some ((((ps.filter (fun t => decide (300 < t))).length : ℚ) / (ps.length : ℚ)) * 100)
        else none }
  else
    { queuedGauge := (active.filter (fun o => decide (o.item = itm) && o.queued)).length
      busyGauge := busy itm
      avgProcess := some 0
      p99Process := some 0
      avgTotal := some 0
      p99Total := some 0
      slowPct := some 0 }

/-- Sample list of the overall processing-time average: elapsed times of all
non-queued active orders plus the 2000 ms recent window of every category,
extended in the iteration order fries, milkshake of PROCESSING_TIMES. -/
def overall_process_times (active : List Order) (pts : Item → List (ℤ × ℤ))
    (now : ℤ) : List ℤ :=
  (active.filter (fun o => !o.queued)).map (fun o => o.elapsed_time now)
    ++ (overallRecentPairs (pts Item.fries) now).map Prod.snd
    ++ (overallRecentPairs (pts Item.milkshake) now).map Prod.snd

/-- Sample list of the overall total-time average: all active orders. -/
def overall_total_times (active : List Order) (now : ℤ) : List ℤ :=
  active.map (fun o => now - o.created_time)

/-- Everything one update_metrics call produces: the new simulator state,
the completion-loop effects, and the gauge writes. -/
structure TickResult where
  sim : OrderSimulator
  comp : CompletionState
  totalOrdersGauge : ℕ
  writes : Item → GaugeWrites
  overallAvgProcess : ℚ
  overallAvgTotal : ℚ

/-- OrderSimulator.update_metrics.  Admission runs first, then the completed
loop, then removal (the source erases each collected order by value, which
on a value-determined completion predicate equals filtering out the
completed ones), then the gauge computations over the remaining orders. -/
def OrderSimulator.update_metrics (machines : Item → ℕ) (s : OrderSimulator)
    (now : ℤ) : TickResult :=
  let ab := admitOrders machines now s.active_orders s.busy_machines
  let cs := ab.1.foldl (completionStep now) (CompletionState.start ab.2 s.processing_times)
  let remaining := ab.1.filter (fun o => !(o.is_completed now))
  { sim := { s with active_orders := remaining,
                    busy_machines := cs.busy,
                    processing_times := cs.ptimes },
    comp := cs,
    totalOrdersGauge := s.total_orders,
    writes := fun itm => itemGaugeWrites remaining (cs.ptimes itm) cs.busy now itm,
    overallAvgProcess := if overall_process_times remaining cs.ptimes now ≠ [] then
        avgQ (overall_process_times remaining cs.ptimes now) else 0,
    overallAvgTotal := if overall_total_times remaining now ≠ [] then
        avgQ (overall_total_times remaining now) else 0 }

/-- Oracle draws for one generated order: the chosen category, the value of
random.uniform over the category range, and the outcome of the
random() < 0.05 penalty draw. -/
structure OrderDraw where
  item : Item
  u : ℤ
  penalty : Bool
  deriving DecidableEq

/-- Running time of the process: (now - PROGRAM_START_MS) if PROGRAM_START_MS
else 0. -/
def runningMs (now programStart : ℤ) : ℤ :=
  if programStart ≠ 0 then now - programStart else 0

/-- One order built by generate_orders: after 100000 ms of running time a
penalty draw below 0.05 adds 180 ms to the drawn duration; start_time and
created_time are both stamped with the current time and the order starts
queued. -/
def mkOrder (now programStart : ℤ) (d : OrderDraw) : Order :=
  let proc := if 100000 ≤ runningMs now programStart ∧ d.penalty then d.u + 180 else d.u
  { item := d.item, processing_time := proc, start_time := now
    created_time := now, queued := true }

/-- OrderSimulator.generate_orders: append one order per draw and count them.
The drawn order count of randint(2, 5) is the length of the oracle list. -/
def OrderSimulator.generate_orders (s : OrderSimulator) (now programStart : ℤ)
    (draws : List OrderDraw) : OrderSimulator :=
  { s with active_orders := s.active_orders ++ draws.map (mkOrder now programStart)
           total_orders := s.total_orders + draws.length }

/-- States reachable by any sequence of generate_orders and update_metrics
calls (with the configured MACHINES pool) from a fresh simulator. -/
inductive Reachable : OrderSimulator → Prop
  | init : ∀ t0, Reachable (OrderSimulator.init t0)
  | gen : ∀ s now pStart draws, Reachable s →
      Reachable (OrderSimulator.generate_orders s now pStart draws)
  | upd : ∀ s now, Reachable s →
      Reachable ((OrderSimulator.update_metrics MACHINES s now).sim)

/-- Per-gender restroom state: the occupancy and queue gauges and the
cumulative visit and hand-washing counters. -/
structure BathroomState where
  occupancy : ℤ
  queue : ℤ
  visits : ℕ
  handwash : ℕ
  deriving DecidableEq

/-- Fresh restroom state: gauges read as 0 before the first write and the
counters start at 0. -/
def BathroomState.init : BathroomState := ⟨0, 0, 0, 0⟩

/-- Oracle draws of one per-gender pass of update_restaurant_metrics:
d1 = randint(-1, 1), extra = (random() < 0.3), d2 = the additional
randint(-1, 1), qGrow = randint(0, 2), qShrink = randint(-1, 0), and
washDraws = the (random() < 0.8) draws of the hand-washing loop. -/
structure BathroomDraw where
  d1 : ℤ
  extra : Bool
  d2 : ℤ
  qGrow : ℤ
  qShrink : ℤ
  washDraws : List Bool
  deriving DecidableEq

/-- The drawn occupancy change before clamping. -/
def occChange (d : BathroomDraw) : ℤ :=
  d.d1 + (if d.extra then d.d2 else 0)

/-- New occupancy gauge value: max(0, min(BATHROOM_CAPACITY, occ + change)). -/
def newOccupancy (occ : ℤ) (d : BathroomDraw) : ℤ :=
  max 0 (min BATHROOM_CAPACITY (occ + occChange d))

/-- The per-gender body of update_restaurant_metrics: clamp the occupancy
walk, move the queue, and when the drawn occupancy change is positive count
that many visits and one hand wash per visitor draw below 0.8. -/
def bathroomStep (st : BathroomState) (d : BathroomDraw) : BathroomState :=
  let newOcc := newOccupancy st.occupancy d
  let queue_change := if BATHROOM_CAPACITY ≤ newOcc then d.qGrow else d.qShrink
  let visitInc := if 0 < occChange d then (occChange d).toNat else 0
  let washInc := ((d.washDraws.take visitInc).filter id).length
  { occupancy := newOcc,
    queue := max 0 (st.queue + queue_change),
    visits := st.visits + visitInc,
    handwash := st.handwash + washInc }

/-- A sequence of ticks for one gender label. -/
def bathroomRun (st : BathroomState) (draws : List BathroomDraw) : BathroomState :=
  draws.foldl bathroomStep st

/-- Modelled from the claim text of C8: the sum of the positive net
increases of the clamped occupancy gauge along the trajectory. -/
def clampedPosDeltaSum : ℤ → List BathroomDraw → ℤ
  | _, [] => 0
  | occ, d :: ds =>
    max 0 (newOccupancy occ d - occ) + clampedPosDeltaSum (newOccupancy occ d) ds

/-- Sum of the positive drawn occupancy changes, before clamping: what the
visit counter actually accumulates. -/
def rawPosSum : List BathroomDraw → ℕ
  | [] => 0
  | d :: ds => (if 0 < occChange d then (occChange d).toNat else 0) + rawPosSum ds

/-- Capacity table of the end-to-end scenario of the spec: one fries
machine. -/
def cap1 : Item → ℕ
  | Item.fries => 1
  | Item.milkshake => 10

/-- Two fries orders created in the same tick at time 0 (program not yet
started, penalty draws above 0.05). -/
def twoFriesOrders (p1 p2 : ℤ) : OrderSimulator :=
  OrderSimulator.generate_orders (OrderSimulator.init 0) 0 0
    [⟨Item.fries, p1, false⟩, ⟨Item.fries, p2, false⟩]

/-- Scenario tick for the capacity-1 counterexample: first order takes
200 ms, second 170 ms, tick at time 0. -/
def cex3Tick1 : TickResult :=
  OrderSimulator.update_metrics cap1 (twoFriesOrders 200 170) 0

/-- Second tick of the capacity-1 counterexample, at time 170. -/
def cex3Tick2 : TickResult :=
  OrderSimulator.update_metrics cap1 cex3Tick1.sim 170

/-- Amended capacity-1 scenario: first order 170 ms, second 200 ms. -/
def am3Tick1 : TickResult :=
  OrderSimulator.update_metrics cap1 (twoFriesOrders 170 200) 0

/-- Amended scenario, tick at 170: the first order completes. -/
def am3Tick2 : TickResult :=
  OrderSimulator.update_metrics cap1 am3Tick1.sim 170

/-- Amended scenario, tick at 180: the queued order is admitted. -/
def am3Tick3 : TickResult :=
  OrderSimulator.update_metrics cap1 am3Tick2.sim 180

/-- Amended scenario, tick at 380: the second order completes in its turn. -/
def am3Tick4 : TickResult :=
  OrderSimulator.update_metrics cap1 am3Tick3.sim 380

/-- Slow-threshold scenario: one fries order of 350 ms admitted at time 0. -/
def cex6Tick0 : TickResult :=
  OrderSimulator.update_metrics MACHINES
    (OrderSimulator.generate_orders (OrderSimulator.init 0) 0 0 [⟨Item.fries, 350, false⟩]) 0

/-- Slow-threshold scenario: the completion tick at time 350. -/
def cex6Tick1 : TickResult :=
  OrderSimulator.update_metrics MACHINES cex6Tick0.sim 350

/-- Zero-sample tick for the percentile counterexample: one update_metrics
call on a fresh simulator. -/
def cex4Tick : TickResult :=
  OrderSimulator.update_metrics MACHINES (OrderSimulator.init 0) 0

/-- Restroom draw that raises occupancy by one with no extra movement. -/
def bathDrawUp : BathroomDraw := ⟨1, false, 0, 0, 0, []⟩

theorem start_processing_busy_le {machines : Item → ℕ} {busy : Item → ℤ} {now : ℤ}
    {o : Order} (h : ∀ i, busy i ≤ (machines i : ℤ)) :
    ∀ i, (_start_processing machines busy now o).2.1 i ≤ (machines i : ℤ) := by
  intro i
  unfold _start_processing
  split
  · exact h i
  · split
    · exact h i
    · next hq hcap =>
      dsimp only
      by_cases hi : i = o.item
      · subst hi
        rw [if_pos rfl]
        have hlt : busy o.item < (machines o.item : ℤ) := lt_of_not_ge hcap
        omega
      · rw [if_neg hi]
        exact h i

theorem admitOrders_busy_le (machines : Item → ℕ) (now : ℤ) :
    ∀ (l : List Order) (busy : Item → ℤ), (∀ i, busy i ≤ (machines i : ℤ)) →
      ∀ i, (admitOrders machines now l busy).2 i ≤ (machines i : ℤ) := by
  intro l
  induction l with
  | nil => intro busy h i; exact h i
  | cons o rest ih =>
    intro busy h i
    unfold admitOrders
    split
    · exact ih _ (start_processing_busy_le h) i
    · exact ih busy h i

theorem completionStep_busy_le (now : ℤ) (st : CompletionState) (o : Order) (i : Item) :
    (completionStep now st o).busy i ≤ st.busy i := by
  unfold completionStep
  split
  · split
    · exact le_refl _
    · dsimp only
      by_cases hi : i = o.item
      · subst hi; rw [if_pos rfl]; omega
      · rw [if_neg hi]
  · exact le_refl _

theorem completionFold_busy_le (now : ℤ) :
    ∀ (l : List Order) (st : CompletionState) (i : Item),
      (l.foldl (completionStep now) st).busy i ≤ st.busy i := by
  intro l
  induction l with
  | nil => intro st i; exact le_refl _
  | cons o rest ih =>
    intro st i
    exact le_trans (ih (completionStep now st o) i) (completionStep_busy_le now st o i)

/-- Claim C1: in every reachable simulator state, the busy-machine count of
each category never exceeds the capacity configured in MACHINES. -/
theorem busy_machines_le_capacity (s : OrderSimulator) (h : Reachable s) :
    ∀ i, s.busy_machines i ≤ (MACHINES i : ℤ) := by
  induction h with
  | init t0 =>
    intro i
    have h0 : (OrderSimulator.init t0).busy_machines i = 0 := rfl
    rw [h0]
    exact Int.natCast_nonneg _
  | gen s now pStart draws _ ih => intro i; exact ih i
  | upd s now _ ih =>
    intro i
    have hadm := admitOrders_busy_le MACHINES now s.active_orders s.busy_machines ih i
    exact le_trans
      (completionFold_busy_le now (admitOrders MACHINES now s.active_orders s.busy_machines).1
        (CompletionState.start (admitOrders MACHINES now s.active_orders s.busy_machines).2
          s.processing_times) i)
      hadm

/-- Witness for C1 at the initial state. -/
theorem busy_machines_le_capacity_witness :
    (OrderSimulator.init 0).busy_machines Item.fries ≤ (MACHINES Item.fries : ℤ) :=
  busy_machines_le_capacity (OrderSimulator.init 0) (Reachable.init 0) Item.fries

/-- Claim C2: _start_processing returns false with the order and the busy
map unchanged exactly when the order is not queued or the category is at
capacity; otherwise it dequeues the order, stamps start_time with the
current time, increments the busy count of the category by one and
returns true. -/
theorem start_processing_spec (machines : Item → ℕ) (busy : Item → ℤ) (now : ℤ)
    (o : Order) :
    (((_start_processing machines busy now o).2.2 = false ∧
      (_start_processing machines busy now o).1 = o ∧
      (_start_processing machines busy now o).2.1 = busy)
      ↔ (o.queued = false ∨ (machines o.item : ℤ) ≤ busy o.item)) ∧
    (o.queued = true → busy o.item < (machines o.item : ℤ) →
      (_start_processing machines busy now o).1
          = { o with queued := false, start_time := now } ∧
      (_start_processing machines busy now o).2.1
          = (fun i => if i = o.item then busy i + 1 else busy i) ∧
      (_start_processing machines busy now o).2.2 = true) := by
  by_cases hq : o.queued = false
  · constructor
    · simp [_start_processing, hq]
    · intro hq2 _
      rw [hq] at hq2
      exact absurd hq2 (by decide)
  · have hq1 : o.queued = true := by
      cases hb : o.queued
      · exact absurd hb hq
      · rfl
    by_cases hcap : (machines o.item : ℤ) ≤ busy o.item
    · constructor
      · simp [_start_processing, hq1, hcap]
      · intro _ hlt
        exact absurd hcap (not_le.mpr hlt)
    · constructor
      · constructor
        · intro hfalse
          have : (_start_processing machines busy now o).2.2 = true := by
            simp [_start_processing, hq1, hcap]
          rw [this] at hfalse
          exact absurd hfalse.1 (by decide)
        · intro hor
          rcases hor with h | h
          · rw [hq1] at h; exact absurd h (by decide)
          · exact absurd h hcap
      · intro _ _
        refine ⟨?_, ?_, ?_⟩ <;> simp [_start_processing, hq1, hcap]

/-- Witness for C2: a queued fries order on idle machines is admitted. -/
theorem start_processing_spec_witness :
    (_start_processing MACHINES (fun _ => 0) 5
        { item := Item.fries, processing_time := 170, start_time := 0,
          created_time := 0, queued := true }).2.2 = true :=
  ((start_processing_spec MACHINES (fun _ => 0) 5
      { item := Item.fries, processing_time := 170, start_time := 0,
        created_time := 0, queued := true }).2 rfl (by decide)).2.2

/-- Claim C3, counterexample: with one fries machine and two same-tick fries
orders of 200 ms and 170 ms, the tick at time 170 removes the still-queued
second order because its creation-stamped deadline elapsed: it was never
admitted, the busy count stays 1 and no sample or observation is recorded,
so it does not wait to be admitted once the first order completes. -/
theorem capacity_one_counterexample :
    cex3Tick1.sim.active_orders =
      [{ item := Item.fries, processing_time := 200, start_time := 0, created_time := 0, queued := false },
       { item := Item.fries, processing_time := 170, start_time := 0, created_time := 0, queued := true }] ∧
    cex3Tick1.sim.busy_machines Item.fries = 1 ∧
    cex3Tick2.comp.completed =
      [{ item := Item.fries, processing_time := 170, start_time := 0, created_time := 0, queued := true }] ∧
    cex3Tick2.sim.active_orders =
      [{ item := Item.fries, processing_time := 200, start_time := 0, created_time := 0, queued := false }] ∧
    cex3Tick2.sim.busy_machines Item.fries = 1 ∧
    cex3Tick2.comp.slidingObs = [] ∧
    cex3Tick2.comp.totalObs = [] := by
  decide

/-- Claim C3, amended: the scenario of the spec holds provided the
creation-stamped deadline of the queued order has not elapsed before a
machine frees.  With durations 170 ms and 200 ms: exactly one order starts
processing in the creation tick and the other stays queued; at time 170
the first completes and frees the machine while the second is still
queued; at time 180 the second is admitted; at time 380 it completes in
its turn and its sample is recorded. -/
theorem capacity_one_amended :
    am3Tick1.sim.active_orders =
      [{ item := Item.fries, processing_time := 170, start_time := 0, created_time := 0, queued := false },
       { item := Item.fries, processing_time := 200, start_time := 0, created_time := 0, queued := true }] ∧
    am3Tick1.sim.busy_machines Item.fries = 1 ∧
    am3Tick2.comp.completed =
      [{ item := Item.fries, processing_time := 170, start_time := 0, created_time := 0, queued := false }] ∧
    am3Tick2.sim.active_orders =
      [{ item := Item.fries, processing_time := 200, start_time := 0, created_time := 0, queued := true }] ∧
    am3Tick2.sim.busy_machines Item.fries = 0 ∧
    am3Tick3.sim.active_orders =
      [{ item := Item.fries, processing_time := 200, start_time := 180, created_time := 0, queued := false }] ∧
    am3Tick3.sim.busy_machines Item.fries = 1 ∧
    am3Tick4.sim.active_orders = [] ∧
    am3Tick4.comp.completed =
      [{ item := Item.fries, processing_time := 200, start_time := 180, created_time := 0, queued := false }] ∧
    am3Tick4.comp.slidingObs = [(Item.fries, 200)] ∧
    am3Tick4.sim.busy_machines Item.fries = 0 := by
  decide

/-- Claim C4, counterexample: a tick in which the category has zero samples
writes both p99 gauges as zero through the reset branch, although zero is
fewer than two samples, so the gauge is not left unset. -/
theorem p99_zero_samples_counterexample :
    all_process_times cex4Tick.sim.active_orders
        (cex4Tick.sim.processing_times Item.fries) 0 Item.fries = [] ∧
    active_total_times cex4Tick.sim.active_orders 0 Item.fries = [] ∧
    (cex4Tick.writes Item.fries).p99Process = some 0 ∧
    (cex4Tick.writes Item.fries).p99Total = some 0 := by
  decide

/-- Claim C4, amended: with at least two samples the p99 gauge is set to the
ascending-sorted sample at index int(count * 0.99); with exactly one sample
it is left unset; with an empty sample list while the other list of the
category is nonempty it is left unset; and with no samples at all both p99
gauges are written as zero by the reset branch. -/
theorem p99_write_cases (active : List Order) (pt : List (ℤ × ℤ))
    (busy : Item → ℤ) (now : ℤ) (itm : Item) (ps ts : List ℤ)
    (hps : ps = all_process_times active pt now itm)
    (hts : ts = active_total_times active now itm) :
    (1 < ps.length →
      (itemGaugeWrites active pt busy now itm).p99Process
        = some ((sortZ ps).getD (p99Index ps.length) 0)) ∧
    (ps.length = 1 → (itemGaugeWrites active pt busy now itm).p99Process = none) ∧
    (1 < ts.length →
      (itemGaugeWrites active pt busy now itm).p99Total
        = some ((sortZ ts).getD (p99Index ts.length) 0)) ∧
    (ts.length = 1 → (itemGaugeWrites active pt busy now itm).p99Total = none) ∧
    (ps = [] → ts ≠ [] → (itemGaugeWrites active pt busy now itm).p99Process = none) ∧
    (ts = [] → ps ≠ [] → (itemGaugeWrites active pt busy now itm).p99Total = none) ∧
    (ps = [] → ts = [] →
      (itemGaugeWrites active pt busy now itm).p99Process = some 0 ∧
      (itemGaugeWrites active pt busy now itm).p99Total = some 0) := by
  subst hps
  subst hts
  unfold itemGaugeWrites
  refine ⟨?_, ?_, ?_, ?_, ?_, ?_, ?_⟩
  · intro h
    have hne : all_process_times active pt now itm ≠ [] :=
      List.ne_nil_of_length_pos (by omega)
    rw [if_pos (Or.inl hne)]
    dsimp only
    rw [if_pos ⟨hne, h⟩]
  · intro h
    have hne : all_process_times active pt now itm ≠ [] :=
      List.ne_nil_of_length_pos (by omega)
    rw [if_pos (Or.inl hne)]
    dsimp only
    rw [if_neg (by
      intro hcontra
      omega)]
  · intro h
    have hne : active_total_times active now itm ≠ [] :=
      List.ne_nil_of_length_pos (by omega)
    rw [if_pos (Or.inr hne)]
    dsimp only
    rw [if_pos ⟨hne, h⟩]
  · intro h
    have hne : active_total_times active now itm ≠ [] :=
      List.ne_nil_of_length_pos (by omega)
    rw [if_pos (Or.inr hne)]
    dsimp only
    rw [if_neg (by
      intro hcontra
      omega)]
  · intro hpe hte
    rw [if_pos (Or.inr hte)]
    dsimp only
    rw [if_neg (by
      intro hcontra
      exact absurd hpe hcontra.1)]
  · intro hte hpe
    rw [if_pos (Or.inl hpe)]
    dsimp only
    rw [if_neg (by
      intro hcontra
      exact absurd hte hcontra.1)]
  · intro hpe hte
    rw [if_neg (by
      intro hcontra
      rcases hcontra with h | h
      · exact absurd hpe h
      · exact absurd hte h)]
    exact ⟨rfl, rfl⟩

/-- Witness for C4 at a two-sample input. -/
theorem p99_write_cases_witness :
    (itemGaugeWrites
        [{ item := Item.fries, processing_time := 170, start_time := 0,
           created_time := 0, queued := false },
         { item := Item.fries, processing_time := 150, start_time := 10,
           created_time := 0, queued := false }] [] (fun _ => 0) 100 Item.fries).p99Process
      = some ((sortZ [100, 90]).getD (p99Index (List.length [100, 90])) 0) :=
  (p99_write_cases
      [{ item := Item.fries, processing_time := 170, start_time := 0,
         created_time := 0, queued := false },
       { item := Item.fries, processing_time := 150, start_time := 10,
         created_time := 0, queued := false }] [] (fun _ => 0) 100 Item.fries
      [100, 90] [100, 100] (by decide) (by decide)).1 (by decide)

/-- Claim C5: a category with no active orders and no recent sliding-window
samples has all five derived gauges written as zero in that tick. -/
theorem no_samples_reset_gauges (active : List Order) (pt : List (ℤ × ℤ))
    (busy : Item → ℤ) (now : ℤ) (itm : Item)
    (h1 : active.filter (fun o => decide (o.item = itm)) = [])
    (h2 : recentPairs pt now = []) :
    (itemGaugeWrites active pt busy now itm).avgProcess = some 0 ∧
    (itemGaugeWrites active pt busy now itm).p99Process = some 0 ∧
    (itemGaugeWrites active pt busy now itm).avgTotal = some 0 ∧
    (itemGaugeWrites active pt busy now itm).p99Total = some 0 ∧
    (itemGaugeWrites active pt busy now itm).slowPct = some 0 := by
  have hmem := List.filter_eq_nil_iff.mp h1
  have hap : active.filter (fun o => decide (o.item = itm) && !o.queued) = [] := by
    apply List.filter_eq_nil_iff.mpr
    intro o ho hcontra
    exact hmem o ho (by
      have := Bool.and_elim_left hcontra
      simpa using this)
  have hps : all_process_times active pt now itm = [] := by
    unfold all_process_times active_process_times
    rw [hap, h2]
    rfl
  have hts : active_total_times active now itm = [] := by
    unfold active_total_times
    rw [h1]
    rfl
  have hcond : ¬(all_process_times active pt now itm ≠ [] ∨
      active_total_times active now itm ≠ []) := by
    rw [hps, hts]
    simp
  unfold itemGaugeWrites
  rw [if_neg hcond]
  exact ⟨rfl, rfl, rfl, rfl, rfl⟩

/-- Witness for C5 at the empty tick. -/
theorem no_samples_reset_gauges_witness :
    (itemGaugeWrites [] [] (fun _ => 0) 0 Item.fries).avgProcess = some 0 ∧
    (itemGaugeWrites [] [] (fun _ => 0) 0 Item.fries).p99Process = some 0 ∧
    (itemGaugeWrites [] [] (fun _ => 0) 0 Item.fries).avgTotal = some 0 ∧
    (itemGaugeWrites [] [] (fun _ => 0) 0 Item.fries).p99Total = some 0 ∧
    (itemGaugeWrites [] [] (fun _ => 0) 0 Item.fries).slowPct = some 0 :=
  no_samples_reset_gauges [] [] (fun _ => 0) 0 Item.fries rfl rfl

/-- Claim C6, counterexample: one fries order admitted at its creation time
completes after 350 ms, so its total time is 350 ms; in the completion tick
the slow counter does not increment, yet the slow percentage gauge of the
same tick reports 100 percent.  No single threshold on total time explains
both effects: the counter fires above 400 ms of total time while the gauge
counts processing-time samples above 300 ms. -/
theorem slow_threshold_counterexample :
    cex6Tick1.comp.slowInc Item.fries = 0 ∧
    cex6Tick1.comp.totalObs = [(Item.fries, 350)] ∧
    cex6Tick1.comp.slidingObs = [(Item.fries, 350)] ∧
    (cex6Tick1.writes Item.fries).slowPct = some 100 := by
  refine ⟨by decide, by decide, by decide, ?_⟩
  rw [show (cex6Tick1.writes Item.fries).slowPct
      = some (((1:ℕ):ℚ) / ((1:ℕ):ℚ) * 100) from rfl]
  norm_num

/-- Claim C6, amended: the slow-order counter increments on completion of a
processing order exactly when its total time exceeds 400 ms, while the slow
percentage gauge equals 100 times the share of the processing-time samples
of the tick that exceed 300 ms. -/
theorem slow_criteria_spec (now : ℤ) (st : CompletionState) (o : Order)
    (active : List Order) (pt : List (ℤ × ℤ)) (busy : Item → ℤ) (itm : Item)
    (hc : o.is_completed now = true) (hq : o.queued = false)
    (hne : all_process_times active pt now itm ≠ []) :
    ((completionStep now st o).slowInc o.item = st.slowInc o.item + 1
      ↔ 400 < now - o.created_time) ∧
    ((completionStep now st o).slowInc o.item = st.slowInc o.item
      ↔ ¬ 400 < now - o.created_time) ∧
    (itemGaugeWrites active pt busy now itm).slowPct
      = some (((((all_process_times active pt now itm).filter
            (fun t => decide (300 < t))).length : ℚ)
          / ((all_process_times active pt now itm).length : ℚ)) * 100) := by
  have hstep : (completionStep now st o).slowInc o.item
      = if o.item = o.item ∧ 400 < now - o.created_time then st.slowInc o.item + 1
        else st.slowInc o.item := by
    unfold completionStep
    rw [if_pos hc, if_neg (by rw [hq]; exact (by decide))]
  refine ⟨?_, ?_, ?_⟩
  · rw [hstep]
    by_cases h4 : 400 < now - o.created_time
    · rw [if_pos ⟨rfl, h4⟩]
      exact ⟨fun _ => h4, fun _ => rfl⟩
    · rw [if_neg (by
        intro hcontra
        exact absurd hcontra.2 h4)]
      constructor
      · intro heq
        omega
      · intro h
        exact absurd h h4
  · rw [hstep]
    by_cases h4 : 400 < now - o.created_time
    · rw [if_pos ⟨rfl, h4⟩]
      constructor
      · intro heq
        omega
      · intro h
        exact absurd h4 h
    · rw [if_neg (by
        intro hcontra
        exact absurd hcontra.2 h4)]
      exact ⟨fun _ => h4, fun _ => rfl⟩
  · unfold itemGaugeWrites
    rw [if_pos (Or.inl hne)]
    dsimp only
    rw [if_pos hne]

/-- Witness for C6: a completion with total time 500 ms increments the
counter. -/
theorem slow_criteria_spec_witness :
    (completionStep 500 (CompletionState.start (fun _ => 1) (fun _ => []))
        { item := Item.fries, processing_time := 450, start_time := 0,
          created_time := 0, queued := false }).slowInc Item.fries
      = (CompletionState.start (fun _ => 1) (fun _ => [])).slowInc Item.fries + 1 :=
  (slow_criteria_spec 500 (CompletionState.start (fun _ => 1) (fun _ => []))
      { item := Item.fries, processing_time := 450, start_time := 0,
        created_time := 0, queued := false }
      [{ item := Item.fries, processing_time := 100, start_time := 0,
         created_time := 0, queued := false }] [] (fun _ => 0) Item.fries
      (by decide) rfl (by decide)).1.mpr (by decide)

/-- Claim C7: every sliding-window pair that enters an aggregate, whether
through the per-category 100 ms recency filter or through the 2000 ms
filter of the overall averages, is at most 2000 ms old, so a sample older
than the retention never contributes. -/
theorem sliding_window_recency (pt : List (ℤ × ℤ)) (now : ℤ) (x : ℤ × ℤ)
    (h : x ∈ recentPairs pt now ∨ x ∈ overallRecentPairs pt now) :
    now - x.1 ≤ 2000 := by
  rcases h with h | h
  · have hp := List.of_mem_filter h
    have : now - x.1 ≤ 100 := of_decide_eq_true hp
    omega
  · have hp := List.of_mem_filter h
    exact of_decide_eq_true hp

/-- Witness for C7 at a concrete window. -/
theorem sliding_window_recency_witness : (50:ℤ) - (0:ℤ) ≤ 2000 :=
  sliding_window_recency [(0, 5)] 50 (0, 5) (Or.inl (by decide))

/-- Claim C8, counterexample: five consecutive occupancy increments from an
empty restroom raise the visit counter by five while the clamped occupancy
gauge rises by only four, so the visit increments do not equal the sum of
the positive net gauge increases. -/
theorem bathroom_visits_counterexample :
    (bathroomRun BathroomState.init (List.replicate 5 bathDrawUp)).visits = 5 ∧
    clampedPosDeltaSum BathroomState.init.occupancy (List.replicate 5 bathDrawUp) = 4 ∧
    ¬ ((bathroomRun BathroomState.init (List.replicate 5 bathDrawUp)).visits : ℤ)
        = clampedPosDeltaSum BathroomState.init.occupancy (List.replicate 5 bathDrawUp) := by
  decide

theorem bathroomRun_visits (draws : List BathroomDraw) :
    ∀ st : BathroomState, (bathroomRun st draws).visits = st.visits + rawPosSum draws := by
  induction draws with
  | nil => intro st; simp [bathroomRun, rawPosSum]
  | cons d ds ih =>
    intro st
    have h1 : bathroomRun st (d :: ds) = bathroomRun (bathroomStep st d) ds := rfl
    rw [h1, ih (bathroomStep st d)]
    simp only [rawPosSum, bathroomStep]
    omega

theorem bathroomRun_handwash_le (draws : List BathroomDraw) :
    ∀ st : BathroomState, st.handwash ≤ st.visits →
      (bathroomRun st draws).handwash ≤ (bathroomRun st draws).visits := by
  induction draws with
  | nil => intro st h; exact h
  | cons d ds ih =>
    intro st h
    have h1 : bathroomRun st (d :: ds) = bathroomRun (bathroomStep st d) ds := rfl
    rw [h1]
    apply ih
    unfold bathroomStep
    dsimp only
    have hwash : ((d.washDraws.take (if 0 < occChange d then (occChange d).toNat else 0)).filter id).length
        ≤ (if 0 < occChange d then (occChange d).toNat else 0) := by
      calc ((d.washDraws.take (if 0 < occChange d then (occChange d).toNat else 0)).filter id).length
          ≤ (d.washDraws.take (if 0 < occChange d then (occChange d).toNat else 0)).length :=
            List.length_filter_le _ _
        _ ≤ (if 0 < occChange d then (occChange d).toNat else 0) := by
            rw [List.length_take]
            omega
    omega

/-- Claim C8, amended: over any run from a fresh restroom state the visit
counter equals the sum of the positive drawn occupancy changes before
clamping, and the hand-washing counter never exceeds the visit counter. -/
theorem bathroom_visits_amended (draws : List BathroomDraw) :
    (bathroomRun BathroomState.init draws).visits = rawPosSum draws ∧
    (bathroomRun BathroomState.init draws).handwash
      ≤ (bathroomRun BathroomState.init draws).visits := by
  constructor
  · have := bathroomRun_visits draws BathroomState.init
    simpa [BathroomState.init] using this
  · exact bathroomRun_handwash_le draws BathroomState.init (by decide)

/-- Claim C9: the order built from any draw of a generate_orders call joins
the active set; while the running time is below 100000 ms its duration lies
in the category range with no penalty; once the running time reaches
100000 ms the duration lies in the range shifted up by 180 ms when the
penalty draw fires and in the plain range otherwise. -/
theorem warmup_penalty_range (s : OrderSimulator) (now pStart : ℤ)
    (draws : List OrderDraw) (d : OrderDraw) (hd : d ∈ draws)
    (hu1 : (PROCESSING_TIMES d.item).1 ≤ d.u)
    (hu2 : d.u ≤ (PROCESSING_TIMES d.item).2) :
    mkOrder now pStart d ∈ (OrderSimulator.generate_orders s now pStart draws).active_orders ∧
    (runningMs now pStart < 100000 →
      (PROCESSING_TIMES d.item).1 ≤ (mkOrder now pStart d).processing_time ∧
      (mkOrder now pStart d).processing_time ≤ (PROCESSING_TIMES d.item).2) ∧
    (100000 ≤ runningMs now pStart → d.penalty = true →
      (PROCESSING_TIMES d.item).1 + 180 ≤ (mkOrder now pStart d).processing_time ∧
      (mkOrder now pStart d).processing_time ≤ (PROCESSING_TIMES d.item).2 + 180) ∧
    (100000 ≤ runningMs now pStart → d.penalty = false →
      (PROCESSING_TIMES d.item).1 ≤ (mkOrder now pStart d).processing_time ∧
      (mkOrder now pStart d).processing_time ≤ (PROCESSING_TIMES d.item).2) := by
  refine ⟨?_, ?_, ?_, ?_⟩
  · unfold OrderSimulator.generate_orders
    simp only [List.mem_append, List.mem_map]
    exact Or.inr ⟨d, hd, rfl⟩
  · intro hrun
    have hcond : ¬(100000 ≤ runningMs now pStart ∧ d.penalty = true) := by
      intro hcontra
      exact absurd hcontra.1 (not_le.mpr hrun)
    unfold mkOrder
    dsimp only
    rw [if_neg (by
      intro hcontra
      exact hcond ⟨hcontra.1, hcontra.2⟩)]
    exact ⟨hu1, hu2⟩
  · intro hrun hpen
    unfold mkOrder
    dsimp only
    rw [if_pos ⟨hrun, hpen⟩]
    constructor <;> omega
  · intro hrun hpen
    unfold mkOrder
    dsimp only
    rw [if_neg (by
      intro hcontra
      rw [hpen] at hcontra
      exact absurd hcontra.2 (by decide))]
    exact ⟨hu1, hu2⟩

/-- Witness for C9: after 199900 ms of running time a firing penalty draw
yields a duration in the shifted range. -/
theorem warmup_penalty_range_witness :
    (PROCESSING_TIMES Item.fries).1 + 180
        ≤ (mkOrder 200000 100 ⟨Item.fries, 180, true⟩).processing_time ∧
    (mkOrder 200000 100 ⟨Item.fries, 180, true⟩).processing_time
        ≤ (PROCESSING_TIMES Item.fries).2 + 180 :=
  (warmup_penalty_range (OrderSimulator.init 0) 200000 100
      [⟨Item.fries, 180, true⟩] ⟨Item.fries, 180, true⟩
      (by decide) (by decide) (by decide)).2.2.1 (by decide) rfl

/-- Claim C10: a queued order whose creation-stamped deadline has elapsed is
collected as completed by the completion loop without any busy-count
decrement, sliding-window append, counter increment or histogram
observation; it is excluded from the remaining active set; and
generate_orders indeed stamps start_time with the creation time. -/
theorem queued_completed_skips_processing (now : ℤ) (st : CompletionState)
    (o : Order) (l : List Order) (pStart : ℤ) (d : OrderDraw)
    (hq : o.queued = true) (hc : o.is_completed now = true) :
    completionStep now st o = { st with completed := st.completed ++ [o] } ∧
    o ∉ l.filter (fun x => !(x.is_completed now)) ∧
    (mkOrder now pStart d).start_time = (mkOrder now pStart d).created_time := by
  refine ⟨?_, ?_, rfl⟩
  · unfold completionStep
    rw [if_pos hc, if_pos hq]
  · intro hmem
    have := List.of_mem_filter hmem
    rw [hc] at this
    exact absurd this (by decide)

/-- Witness for C10: a queued order past its deadline is only collected. -/
theorem queued_completed_skips_processing_witness :
    completionStep 10 (CompletionState.start (fun _ => 0) (fun _ => []))
        { item := Item.fries, processing_time := 5, start_time := 0,
          created_time := 0, queued := true }
      = { CompletionState.start (fun _ => 0) (fun _ => []) with
          completed := (CompletionState.start (fun _ => 0) (fun _ => [])).completed
            ++ [{ item := Item.fries, processing_time := 5, start_time := 0,
                  created_time := 0, queued := true }] } :=
  (queued_completed_skips_processing 10 (CompletionState.start (fun _ => 0) (fun _ => []))
      { item := Item.fries, processing_time := 5, start_time := 0,
        created_time := 0, queued := true }
      [] 0 ⟨Item.fries, 170, false⟩ rfl (by decide)).1

end FastFood
